import Mathlib

/-!
Shallow embedding of `src/server/providers/ovhcloud/index.js` (scrapoxy's
OVH Cloud instance provider) and proofs about its listing, creation and
deletion pipelines.

The vendor network is modelled as a `VendorEnv` value: the responses the
vendor would give to the list endpoints, plus the set of instance ids whose
delete call would fail.  Each operation is a pure function returning its
result, the updated provider state, and the ordered list of vendor requests
it issued (its request trace).  JavaScript truthiness of the relevant values
(strings, option-like absent values, numbers) is modelled explicitly where
the source relies on it.
-/

namespace OVHCloud

/-- Vendor status constant `ProviderOVHCloud.ST_ACTIVE`. -/
def ST_ACTIVE : String := "ACTIVE"

/-- Vendor status constant `ProviderOVHCloud.ST_BUILD`. -/
def ST_BUILD : String := "BUILD"

/-- Vendor status constant `ProviderOVHCloud.ST_DELETING`. -/
def ST_DELETING : String := "DELETING"

/-- Vendor status constant `ProviderOVHCloud.ST_ERROR`. -/
def ST_ERROR : String := "ERROR"

/-- Modelled from the spec: the external instance model's status constants
`InstanceModel.STARTED / STARTING / ERROR` (the instance model lives in
`../../proxies/manager/instance.model`, outside this repository slice). -/
inductive ModelStatus where
  | STARTED
  | STARTING
  | ERROR
deriving DecidableEq, Repr

/-- One entry of a raw descriptor's `ipAddresses` array; the adapter only
reads its `ip` field. -/
structure IpAddr where
  ip : String
deriving DecidableEq, Repr

/-- Vendor-native instance descriptor as returned by the instance list
endpoint, restricted to the fields the adapter reads.  `name` is `none` when
the JSON field is absent or null; the empty string is `some ""`. -/
structure RawInstanceDesc where
  id : String
  status : String
  name : Option String
  ipAddresses : List IpAddr
deriving DecidableEq, Repr

/-- A named vendor resource (flavor, snapshot or ssh key): the adapter only
reads `id` and `name`. -/
structure NamedResource where
  id : String
  name : String
deriving DecidableEq, Repr

/-- Provider configuration (the fields `index.js` reads from `config`). -/
structure Config where
  endpoint : String
  appKey : String
  appSecret : String
  consumerKey : String
  serviceId : String
  region : String
  name : String
  flavorName : String
  snapshotName : String
  sshKeyName : String
  maxRunningInstances : Option Nat
deriving DecidableEq, Repr

/-- The vendor world: the data the list endpoints would return, and the ids
whose DELETE call would fail. -/
structure VendorEnv where
  instances : List RawInstanceDesc
  flavors : List NamedResource
  snapshots : List NamedResource
  sshKeys : List NamedResource
  failingDeletes : List String
deriving DecidableEq, Repr

/-- Mutable provider fields `_flavorId`, `_snapshotId`, `_sshKeyId`
(`void 0` initially, assigned on resolution). -/
structure ProviderState where
  flavorId : Option String
  snapshotId : Option String
  sshKeyId : Option String
deriving DecidableEq, Repr

/-- The initial provider state set by the constructor (all three ids
unresolved). -/
def initialState : ProviderState := ⟨none, none, none⟩

/-- A vendor request issued through `self._client.request`, with the
parameters the source passes. -/
inductive VendorRequest where
  | listInstances (serviceName region : String)
  | listFlavors (serviceName region : String)
  | listSnapshots (serviceName region : String)
  | listSshKeys (serviceName region : String)
  | createInstance (serviceName region flavorId imageId name sshKeyId : String)
  | deleteInstance (serviceName instanceId : String)
deriving DecidableEq, Repr

/-- Errors the operations reject with.  `referenceError` models a
JavaScript ReferenceError escaping a callback and turning into a promise
rejection: the source's capacity branch calls `reject(...)`, an identifier
that is unbound in the `.then` callback's scope chain, so under
`'use strict'` the branch throws `ReferenceError: reject is not defined`
and the capacity `Error` it constructs is discarded, never surfaced. -/
inductive ProviderError where
  | referenceError (msg : String)
  | flavorNotFound (name : String)
  | snapshotNotFound (name : String)
  | sshKeyNotFound (name : String)
  | vendorError (msg : String)
deriving DecidableEq, Repr

/-- JavaScript truthiness of a possibly-absent string value: `undefined`,
`null` and `""` are falsy, any other string is truthy. -/
def optTruthy : Option String → Bool
  | none => false
  | some s => s ≠ ""

/-- The summarized descriptor built by `summarizeInfo`: `_.pick` of `id`,
`status`, `name` extended with `ip` (the `toString` helper carries no data
and is not modelled). -/
structure Summary where
  id : String
  status : String
  name : Option String
  ip : Option String
deriving DecidableEq, Repr

/-- `getIP`: the first entry's `ip` field, absent when `ipAddresses` is
missing or empty. -/
def getIP (d : RawInstanceDesc) : Option String :=
  match d.ipAddresses with
  | [] => none
  | a :: _ => some a.ip

/-- `summarizeInfo` applied to one descriptor. -/
def summarizeOne (d : RawInstanceDesc) : Summary :=
  { id := d.id, status := d.status, name := d.name, ip := getIP d }

/-- `summarizeInfo`: project every raw descriptor to its summary. -/
def summarizeInfo (l : List RawInstanceDesc) : List Summary :=
  l.map summarizeOne

/-- `excludeTerminated`: keep summaries whose status is not DELETING. -/
def excludeTerminated (l : List Summary) : List Summary :=
  l.filter (fun s => s.status ≠ ST_DELETING)

/-- The test `name.indexOf(pool) == 0` of the source: the name contains
the pool string at position 0, i.e. starts with it (character-wise, case
sensitive). -/
def strStartsWith (n p : String) : Bool :=
  p.data.isPrefixOf n.data

/-- The `excludeOutscope` filter condition
`instanceDesc.name && instanceDesc.name.indexOf(self._config.name) == 0`:
the name must be truthy (present and non-empty) and must contain the pool
name at position 0, i.e. start with it. -/
def nameInScope (poolName : String) (name : Option String) : Bool :=
  match name with
  | none => false
  | some n => n ≠ "" && strStartsWith n poolName

/-- `excludeOutscope`: keep summaries whose truthy name starts with the
configured pool name. -/
def excludeOutscope (poolName : String) (l : List Summary) : List Summary :=
  l.filter (fun s => nameInScope poolName s.name)

/-- `convertStatus`: translate a vendor status to a model status; every
value outside ACTIVE/BUILD/ERROR falls into the `default` branch, which
logs and returns ERROR (logging is outside the embedding). -/
def convertStatus (status : String) : ModelStatus :=
  if status = ST_ACTIVE then ModelStatus.STARTED
  else if status = ST_BUILD then ModelStatus.STARTING
  else if status = ST_ERROR then ModelStatus.ERROR
  else ModelStatus.ERROR

/-- An instance address `{hostname, port}`. -/
structure Address where
  hostname : String
  port : Int
deriving DecidableEq, Repr

/-- `buildAddress`: absent when `ip` is falsy (`undefined` or `""`),
otherwise the first ip with the configured instance port. -/
def buildAddress (instancePort : Int) (ip : Option String) : Option Address :=
  match ip with
  | none => none
  | some s => if s = "" then none else some { hostname := s, port := instancePort }

/-- Modelled from the spec: the external `InstanceModel` value type
`{id, providerName, status, address, providerOpts}` with accessor
`getProviderOpts`; its `providerOpts` slot stores exactly the fifth
constructor argument.  In this adapter that argument is the summarized
descriptor, so `providerOpts` has type `Summary` here. -/
structure InstanceModel where
  id : String
  providerName : String
  status : ModelStatus
  address : Option Address
  providerOpts : Summary
deriving DecidableEq, Repr

/-- `convertToModel` applied to one summary. -/
def convertOne (instancePort : Int) (s : Summary) : InstanceModel :=
  { id := s.id
    providerName := "ovhcloud"
    status := convertStatus s.status
    address := buildAddress instancePort s.ip
    providerOpts := s }

/-- `convertToModel`: map surviving summaries to instance models. -/
def convertToModel (instancePort : Int) (l : List Summary) : List InstanceModel :=
  l.map (convertOne instancePort)

/-- `getModels`: the full listing pipeline
describe → summarizeInfo → excludeTerminated → excludeOutscope →
convertToModel (the single vendor call is the instance list). -/
def getModels (cfg : Config) (instancePort : Int) (env : VendorEnv) :
    List InstanceModel :=
  convertToModel instancePort
    (excludeOutscope cfg.name (excludeTerminated (summarizeInfo env.instances)))

/-- The count used by `createInstances`: current instances whose status is
not DELETING. -/
def nonDeletingCount (instances : List RawInstanceDesc) : Nat :=
  (instances.filter (fun i => i.status ≠ ST_DELETING)).length

/-- `_.findWhere(results, {name: name})`: first resource with that exact
name. -/
def findByName (l : List NamedResource) (name : String) : Option NamedResource :=
  l.find? (fun r => r.name = name)

/-- One `if (!self._xId) { ... }` block of the source's `init`: when the
cached id is falsy, resolve by exact name and cache the found resource's
id (leaving the cache untouched when the lookup finds nothing, since the
assignment sits in the success continuation); when the cached id is truthy
the block is skipped entirely. -/
def resolveLookup (cached : Option String) (l : List NamedResource)
    (nm : String) : Option String :=
  if !(optTruthy cached) then
    match findByName l nm with
    | some r => some r.id
    | none => cached
  else cached

/-- The `init` step of `createInstancesFn`: for each of the three resource
ids whose cached value is falsy, issue the corresponding list request and
resolve by exact name; each successful resolution is cached even when
another resolution fails.  Requests are recorded in the order the source
builds the promises (flavor, snapshot, ssh key); the first failing
resolution in that order provides the error. -/
def initResolve (cfg : Config) (st : ProviderState) (env : VendorEnv) :
    Except ProviderError Unit × ProviderState × List VendorRequest :=
  let needF := !(optTruthy st.flavorId)
  let needS := !(optTruthy st.snapshotId)
  let needK := !(optTruthy st.sshKeyId)
  let reqs : List VendorRequest :=
    (if needF then [VendorRequest.listFlavors cfg.serviceId cfg.region] else []) ++
    (if needS then [VendorRequest.listSnapshots cfg.serviceId cfg.region] else []) ++
    (if needK then [VendorRequest.listSshKeys cfg.serviceId cfg.region] else [])
  let st' : ProviderState :=
    { flavorId := resolveLookup st.flavorId env.flavors cfg.flavorName
      snapshotId := resolveLookup st.snapshotId env.snapshots cfg.snapshotName
      sshKeyId := resolveLookup st.sshKeyId env.sshKeys cfg.sshKeyName }
  let res : Except ProviderError Unit :=
    if needF && (findByName env.flavors cfg.flavorName).isNone then
      Except.error (ProviderError.flavorNotFound cfg.flavorName)
    else if needS && (findByName env.snapshots cfg.snapshotName).isNone then
      Except.error (ProviderError.snapshotNotFound cfg.snapshotName)
    else if needK && (findByName env.sshKeys cfg.sshKeyName).isNone then
      Except.error (ProviderError.sshKeyNotFound cfg.sshKeyName)
    else Except.ok ()
  (res, st', reqs)

/-- `createInstancesFn`: describe the current instances (one vendor call),
count the non-DELETING ones, then check a truthy cap.  When the cap would
be exceeded the source executes `return reject(new Error('... limit
reach ...'))` — but `reject` is not bound anywhere in the `.then`
callback's scope chain (every other `reject` in the file is a promise
executor parameter local to its own `new Promise`), so under
`'use strict'` the branch throws `ReferenceError: reject is not defined`;
the promise library turns that into the rejection the caller sees, and
the constructed capacity error is discarded.  Otherwise the call resolves
missing resource ids and issues `count` identical creation requests.
Creation requests themselves succeed in this environment model; the
claims under study concern the capacity check, the request trace and the
resolution cache. -/
def createInstances (cfg : Config) (st : ProviderState) (env : VendorEnv)
    (count : Nat) :
    Except ProviderError Unit × ProviderState × List VendorRequest :=
  let describeReq := VendorRequest.listInstances cfg.serviceId cfg.region
  let actualCount := nonDeletingCount env.instances
  let capHit : Bool :=
    match cfg.maxRunningInstances with
    | none => false
    | some cap => (cap != 0) && decide (actualCount + count > cap)
  if capHit then
    (Except.error (ProviderError.referenceError "reject is not defined"),
     st, [describeReq])
  else
    match initResolve cfg st env with
    | (Except.error e, st', reqs) => (Except.error e, st', describeReq :: reqs)
    | (Except.ok _, st', reqs) =>
        let createReq := VendorRequest.createInstance cfg.serviceId cfg.region
          (st'.flavorId.getD "") (st'.snapshotId.getD "") cfg.name
          (st'.sshKeyId.getD "")
        (Except.ok (), st', describeReq :: (reqs ++ List.replicate count createReq))

/-- `_deleteInstance`: one DELETE request for the given instance id; fails
when the environment fails that id's deletion. -/
def deleteOne (cfg : Config) (env : VendorEnv) (instanceId : String) :
    Except ProviderError Unit × List VendorRequest :=
  (if env.failingDeletes.contains instanceId then
      Except.error (ProviderError.vendorError instanceId)
    else Except.ok (),
   [VendorRequest.deleteInstance cfg.serviceId instanceId])

/-- `deleteInstanceFn` (single model): extract the vendor id from the
model's providerOpts and issue one delete request. -/
def deleteInstance (cfg : Config) (env : VendorEnv) (m : InstanceModel) :
    Except ProviderError Unit × List VendorRequest :=
  deleteOne cfg env m.providerOpts.id

/-- `deleteInstancesFn`: immediate return on an empty list (no vendor
call); otherwise one delete request per model, overall failure when any
individual delete fails (the first failure, in list order, is reported).
`errOf` extracts the failure of one sub-operation. -/
def errOf (p : Except ProviderError Unit × List VendorRequest) :
    Option ProviderError :=
  match p.1 with
  | Except.error e => some e
  | Except.ok _ => none

/-- `deleteInstancesFn`: the batch delete operation. -/
def deleteInstances (cfg : Config) (env : VendorEnv)
    (models : List InstanceModel) :
    Except ProviderError Unit × List VendorRequest :=
  if models.length ≤ 0 then (Except.ok (), [])
  else
    let results := models.map (fun m => deleteOne cfg env m.providerOpts.id)
    (match results.findSome? errOf with
     | some e => Except.error e
     | none => Except.ok (),
     (results.map (fun p => p.2)).flatten)

/-- A constructed provider value (the fields the constructor sets). -/
structure Provider where
  config : Config
  instancePort : Int
  name : String
  state : ProviderState
deriving DecidableEq, Repr

/-- The constructor `ProviderOVHCloud(config, instancePort)`: throws when
`!config || !instancePort`, i.e. when the config is absent or the port is
the falsy number 0; otherwise builds the provider with unresolved ids. -/
def mkProviderOVHCloud : Option Config → Int → Except String Provider
  | none, _ =>
      Except.error "ProviderOVHCloud should be instanced with config and instancePort"
  | some cfg, port =>
      if port = 0 then
        Except.error "ProviderOVHCloud should be instanced with config and instancePort"
      else
        Except.ok { config := cfg, instancePort := port, name := "ovhcloud",
                    state := initialState }

/-- Whether an `Except` result is a success. -/
def isOk {ε α : Type} : Except ε α → Bool
  | Except.ok _ => true
  | Except.error _ => false

/-- Whether a vendor request is one of the three resource-id list requests
(flavor, snapshot or ssh-key list). -/
def isResolutionReq : VendorRequest → Bool
  | VendorRequest.listFlavors _ _ => true
  | VendorRequest.listSnapshots _ _ => true
  | VendorRequest.listSshKeys _ _ => true
  | _ => false

/-- Number of resource-id list requests in a trace. -/
def resolutionReqCount (tr : List VendorRequest) : Nat :=
  (tr.filter isResolutionReq).length

/-- All flavor, snapshot and ssh-key ids in the environment are truthy
(non-empty) strings, as real vendor ids are. -/
def wellFormedIds (env : VendorEnv) : Prop :=
  (∀ r ∈ env.flavors, r.id ≠ "") ∧ (∀ r ∈ env.snapshots, r.id ≠ "") ∧
    (∀ r ∈ env.sshKeys, r.id ≠ "")

instance (env : VendorEnv) : Decidable (wellFormedIds env) := by
  unfold wellFormedIds
  infer_instance

/-- All three cached resource ids are truthy (the state the cache reaches
after a successful resolution pass). -/
def allResolved (st : ProviderState) : Bool :=
  optTruthy st.flavorId && optTruthy st.snapshotId && optTruthy st.sshKeyId

/-! Concrete fixtures used by witnesses and counterexamples. -/

/-- A sample configuration with pool name `pool-a` and no running cap. -/
def cfgA : Config :=
  { endpoint := "ovh-eu", appKey := "k", appSecret := "s", consumerKey := "c",
    serviceId := "svc", region := "GRA1", name := "pool-a",
    flavorName := "vps-ssd-1", snapshotName := "snap", sshKeyName := "key",
    maxRunningInstances := none }

/-- The sample configuration with a running cap of 5. -/
def cfgCap : Config := { cfgA with maxRunningInstances := some 5 }

/-- The sample configuration with an empty pool name. -/
def cfgEmpty : Config := { cfgA with name := "" }

/-- An in-scope ACTIVE instance with one IP address. -/
def instOneIp : RawInstanceDesc :=
  { id := "i-1", status := "ACTIVE", name := some "pool-a-1",
    ipAddresses := [⟨"10.0.0.1"⟩] }

/-- The same instance with a second IP address appended. -/
def instTwoIps : RawInstanceDesc :=
  { instOneIp with ipAddresses := [⟨"10.0.0.1"⟩, ⟨"10.0.0.2"⟩] }

/-- An in-scope instance in status DELETING. -/
def instDel : RawInstanceDesc :=
  { id := "i-2", status := "DELETING", name := some "pool-a-2",
    ipAddresses := [⟨"10.0.0.2"⟩] }

/-- An ACTIVE instance whose name is outside the pool. -/
def instOut : RawInstanceDesc :=
  { id := "i-3", status := "ACTIVE", name := some "other-x", ipAddresses := [] }

/-- An ACTIVE instance with no name field. -/
def instNoName : RawInstanceDesc :=
  { id := "i-4", status := "ACTIVE", name := none, ipAddresses := [] }

/-- An in-scope ACTIVE instance whose single IP entry is the empty string. -/
def instEmptyIp : RawInstanceDesc :=
  { id := "i-9", status := "ACTIVE", name := some "pool-a-9",
    ipAddresses := [⟨""⟩] }

/-- A sample environment: one listed instance, resolvable flavor, snapshot
and ssh key, and one instance id whose delete call fails. -/
def envA : VendorEnv :=
  { instances := [instOneIp],
    flavors := [⟨"f-1", "vps-ssd-1"⟩], snapshots := [⟨"s-1", "snap"⟩],
    sshKeys := [⟨"k-1", "key"⟩], failingDeletes := ["i-bad"] }

/-- An environment with four non-DELETING instances (for the capacity
check). -/
def envFour : VendorEnv :=
  { instances :=
      [instOneIp,
       { id := "i-5", status := "ACTIVE", name := some "pool-a-5", ipAddresses := [] },
       { id := "i-6", status := "BUILD", name := some "pool-a-6", ipAddresses := [] },
       { id := "i-7", status := "ERROR", name := some "pool-a-7", ipAddresses := [] }],
    flavors := [⟨"f-1", "vps-ssd-1"⟩], snapshots := [⟨"s-1", "snap"⟩],
    sshKeys := [⟨"k-1", "key"⟩], failingDeletes := [] }

/-- An environment whose only instance has an empty-string first IP. -/
def envEmptyIp : VendorEnv :=
  { instances := [instEmptyIp], flavors := [], snapshots := [], sshKeys := [],
    failingDeletes := [] }

/-- A model whose delete succeeds in `envA`. -/
def mOk : InstanceModel := convertOne 3128 (summarizeOne instOneIp)

/-- A model whose providerOpts id is in `envA`'s failing-delete set. -/
def mBad : InstanceModel :=
  { id := "i-bad", providerName := "ovhcloud", status := ModelStatus.ERROR,
    address := none,
    providerOpts := { id := "i-bad", status := "ERROR", name := some "pool-a-bad",
                      ip := none } }

end OVHCloud

namespace OVHCloud

/-! Helper lemmas shared by the claim theorems. -/

/-- Membership in the `getModels` output characterised by the source
pipeline: a model comes from a listed descriptor that is not DELETING and
whose truthy name starts with the pool name. -/
theorem mem_getModels_iff (cfg : Config) (p : Int) (env : VendorEnv)
    (m : InstanceModel) :
    m ∈ getModels cfg p env ↔
      ∃ d, d ∈ env.instances ∧ d.status ≠ ST_DELETING ∧
        nameInScope cfg.name d.name = true ∧ m = convertOne p (summarizeOne d) := by
  simp only [getModels, convertToModel, excludeOutscope, excludeTerminated,
    summarizeInfo, List.mem_map, List.mem_filter, decide_eq_true_eq]
  constructor
  · rintro ⟨s, ⟨⟨⟨d, hd, rfl⟩, hst⟩, hns⟩, rfl⟩
    exact ⟨d, hd, hst, hns, rfl⟩
  · rintro ⟨d, hd, hst, hns, rfl⟩
    exact ⟨summarizeOne d, ⟨⟨⟨d, hd, rfl⟩, hst⟩, hns⟩, rfl⟩

/-- Prepending a descriptor that fails one of the two filters does not
change the `getModels` output. -/
theorem getModels_cons_skip (cfg : Config) (p : Int) (env : VendorEnv)
    (d : RawInstanceDesc)
    (h : d.status = ST_DELETING ∨ nameInScope cfg.name d.name = false) :
    getModels cfg p { env with instances := d :: env.instances } =
      getModels cfg p env := by
  rcases h with h | h
  · simp [getModels, summarizeInfo, excludeTerminated, excludeOutscope,
      convertToModel, summarizeOne, h]
  · by_cases hst : d.status = ST_DELETING
    · simp [getModels, summarizeInfo, excludeTerminated, excludeOutscope,
        convertToModel, summarizeOne, hst]
    · simp [getModels, summarizeInfo, excludeTerminated, excludeOutscope,
        convertToModel, summarizeOne, hst, h]

/-! Claim theorems. -/

/-- Claim C5: the vendor-status-to-model-status translation used by
getModels is total: ACTIVE maps to STARTED, BUILD to STARTING, ERROR to
ERROR, and every other status value maps to ERROR (the diagnostic log is a
side effect outside the embedding); no status value can make the
translation fail. -/
theorem C5_status_translation_total :
    convertStatus ST_ACTIVE = ModelStatus.STARTED ∧
    convertStatus ST_BUILD = ModelStatus.STARTING ∧
    convertStatus ST_ERROR = ModelStatus.ERROR ∧
    ∀ s : String, s ≠ ST_ACTIVE → s ≠ ST_BUILD → s ≠ ST_ERROR →
      convertStatus s = ModelStatus.ERROR := by
  refine ⟨rfl, rfl, rfl, ?_⟩
  intro s h1 h2 h3
  simp [convertStatus, h1, h2, h3]

/-- Witness for C5: the hypothetical status SUSPENDED falls into the
default branch and maps to ERROR. -/
theorem C5_witness : convertStatus "SUSPENDED" = ModelStatus.ERROR :=
  C5_status_translation_total.2.2.2 "SUSPENDED" (by decide) (by decide) (by decide)

/-- Counterexample to claim C1: two distinct raw descriptors — the same
instance listed with one and with two IP addresses — produce identical
getModels outputs, so the surviving model's providerOpts cannot be the
unmodified raw list-endpoint payload (the second address is lost; only the
normalized summary is retained). -/
theorem C1_counterexample :
    instOneIp ≠ instTwoIps ∧
    getModels cfgA 3128
        { instances := [instOneIp], flavors := [], snapshots := [],
          sshKeys := [], failingDeletes := [] } =
      getModels cfgA 3128
        { instances := [instTwoIps], flavors := [], snapshots := [],
          sshKeys := [], failingDeletes := [] } :=
  ⟨by decide, rfl⟩

/-- Claim C1 (amended): for every model surviving the getModels pipeline,
providerOpts is the normalized summary (id, status, name, first ip) of a
listed raw descriptor — not the unmodified raw payload — and it retains the
vendor id, so downstream deletion issues its delete against that id. -/
theorem C1_providerOpts_is_summary (cfg : Config) (p : Int) (env : VendorEnv)
    (m : InstanceModel) (h : m ∈ getModels cfg p env) :
    ∃ d, d ∈ env.instances ∧ m.providerOpts = summarizeOne d ∧
      m.providerOpts.id = d.id ∧
      deleteInstance cfg env m = deleteOne cfg env d.id := by
  rcases (mem_getModels_iff cfg p env m).1 h with ⟨d, hd, -, -, rfl⟩
  exact ⟨d, hd, rfl, rfl, rfl⟩

/-- Witness for C1 (amended) at a concrete environment. -/
theorem C1_witness :
    ∃ d, d ∈ envA.instances ∧
      (convertOne 3128 (summarizeOne instOneIp)).providerOpts = summarizeOne d ∧
      (convertOne 3128 (summarizeOne instOneIp)).providerOpts.id = d.id ∧
      deleteInstance cfgA envA (convertOne 3128 (summarizeOne instOneIp)) =
        deleteOne cfgA envA d.id :=
  C1_providerOpts_is_summary cfgA 3128 envA
    (convertOne 3128 (summarizeOne instOneIp)) (by decide)

/-- Claim C2 (code bug, evaluated at the spec's own scenario): with cap 5
and four non-DELETING instances, createInstances(2) trips the capacity
check (4 + 2 > 5), issues no creation or resolution request and leaves the
state unchanged — but it rejects with the ReferenceError from the unbound
`reject`, not with the capacity error the claim and the spec describe, and
the instance-list describe call has already been issued before the
rejection. -/
theorem C2_capacity_code_bug :
    createInstances cfgCap initialState envFour 2 =
      (Except.error (ProviderError.referenceError "reject is not defined"),
       initialState, [VendorRequest.listInstances "svc" "GRA1"]) :=
  rfl

/-- Claim C3: a DELETING raw descriptor never appears in the getModels
output (no surviving model carries a DELETING status, and adding a DELETING
descriptor to the listing changes nothing), and it is never counted toward
the running-instance count used by the creation cap check (adding it leaves
the entire createInstances behaviour unchanged). -/
theorem C3_deleting_excluded (cfg : Config) (p : Int) (st : ProviderState)
    (env : VendorEnv) (d : RawInstanceDesc) (count : Nat)
    (h : d.status = ST_DELETING) :
    (∀ m ∈ getModels cfg p env, m.providerOpts.status ≠ ST_DELETING) ∧
    getModels cfg p { env with instances := d :: env.instances } =
      getModels cfg p env ∧
    createInstances cfg st { env with instances := d :: env.instances } count =
      createInstances cfg st env count := by
  refine ⟨?_, getModels_cons_skip cfg p env d (Or.inl h), ?_⟩
  · intro m hm
    rcases (mem_getModels_iff cfg p env m).1 hm with ⟨e, -, hst, -, rfl⟩
    exact hst
  · have hc : nonDeletingCount (d :: env.instances) =
        nonDeletingCount env.instances := by
      simp [nonDeletingCount, h]
    have hi : initResolve cfg st { env with instances := d :: env.instances } =
        initResolve cfg st env := rfl
    simp only [createInstances]
    rw [show nonDeletingCount
        ({ env with instances := d :: env.instances } : VendorEnv).instances =
        nonDeletingCount env.instances from hc, hi]

/-- Witness for C3 at a concrete environment and DELETING descriptor. -/
theorem C3_witness :
    (∀ m ∈ getModels cfgA 3128 envA, m.providerOpts.status ≠ ST_DELETING) ∧
    getModels cfgA 3128 { envA with instances := instDel :: envA.instances } =
      getModels cfgA 3128 envA ∧
    createInstances cfgA initialState
        { envA with instances := instDel :: envA.instances } 1 =
      createInstances cfgA initialState envA 1 :=
  C3_deleting_excluded cfgA 3128 initialState envA instDel 1 (by decide)

/-- Claim C4: a raw descriptor whose name does not start with the
configured pool name never appears in the getModels output, whatever its
status: every surviving model's name starts with the pool name, and adding
such a descriptor to the listing changes nothing. -/
theorem C4_outscope_excluded (cfg : Config) (p : Int) (env : VendorEnv)
    (d : RawInstanceDesc)
    (h : ∀ n, d.name = some n → strStartsWith n cfg.name = false) :
    (∀ m ∈ getModels cfg p env, ∃ n, m.providerOpts.name = some n ∧
        strStartsWith n cfg.name = true) ∧
    getModels cfg p { env with instances := d :: env.instances } =
      getModels cfg p env := by
  have hns : nameInScope cfg.name d.name = false := by
    cases hn : d.name with
    | none => rfl
    | some n => simp [nameInScope, h n hn]
  refine ⟨?_, getModels_cons_skip cfg p env d (Or.inr hns)⟩
  intro m hm
  rcases (mem_getModels_iff cfg p env m).1 hm with ⟨e, -, -, hscope, rfl⟩
  cases he : e.name with
  | none => rw [he] at hscope; simp [nameInScope] at hscope
  | some n =>
      rw [he] at hscope
      simp only [nameInScope, Bool.and_eq_true, decide_eq_true_eq] at hscope
      exact ⟨n, he, hscope.2⟩

/-- Witness for C4 at a concrete out-of-scope descriptor. -/
theorem C4_witness :
    (∀ m ∈ getModels cfgA 3128 envA, ∃ n, m.providerOpts.name = some n ∧
        strStartsWith n cfgA.name = true) ∧
    getModels cfgA 3128 { envA with instances := instOut :: envA.instances } =
      getModels cfgA 3128 envA :=
  C4_outscope_excluded cfgA 3128 envA instOut (fun n hn => by
    simp only [instOut] at hn
    rw [Option.some.injEq] at hn
    subst hn
    decide)

/-- Counterexample to claim C6: a descriptor whose single IP entry is the
empty string survives the pipeline, so it has at least one IP address, yet
the resulting model's address is absent (buildAddress tests JavaScript
truthiness of the first ip, and the empty string is falsy). -/
theorem C6_counterexample :
    instEmptyIp.ipAddresses.length = 1 ∧
    getModels cfgA 3128 envEmptyIp =
      [{ id := "i-9", providerName := "ovhcloud", status := ModelStatus.STARTED,
         address := none, providerOpts := summarizeOne instEmptyIp }] :=
  ⟨rfl, rfl⟩

/-- Claim C6 (amended): for every model in the getModels output, coming
from listed descriptor d: if d's IP list is empty the address is absent;
if d has a first IP entry then the address is present with hostname equal
to that first IP and port equal to the configured instance port — unless
the first IP is the empty string (falsy), in which case the address is
absent. -/
theorem C6_address_from_first_ip (cfg : Config) (p : Int) (env : VendorEnv)
    (m : InstanceModel) (h : m ∈ getModels cfg p env) :
    ∃ d, d ∈ env.instances ∧ m.providerOpts = summarizeOne d ∧
      (d.ipAddresses = [] → m.address = none) ∧
      ∀ a rest, d.ipAddresses = a :: rest →
        (a.ip = "" → m.address = none) ∧
        (a.ip ≠ "" → m.address = some { hostname := a.ip, port := p }) := by
  rcases (mem_getModels_iff cfg p env m).1 h with ⟨d, hd, -, -, rfl⟩
  refine ⟨d, hd, rfl, ?_, ?_⟩
  · intro hip
    simp [convertOne, buildAddress, summarizeOne, getIP, hip]
  · intro a rest hip
    constructor
    · intro ha
      simp [convertOne, buildAddress, summarizeOne, getIP, hip, ha]
    · intro ha
      simp [convertOne, buildAddress, summarizeOne, getIP, hip, ha]

/-- Witness for C6 (amended) at a concrete in-scope instance with one
non-empty IP. -/
theorem C6_witness :
    ∃ d, d ∈ envA.instances ∧
      (convertOne 3128 (summarizeOne instOneIp)).providerOpts = summarizeOne d ∧
      (d.ipAddresses = [] →
        (convertOne 3128 (summarizeOne instOneIp)).address = none) ∧
      ∀ a rest, d.ipAddresses = a :: rest →
        (a.ip = "" → (convertOne 3128 (summarizeOne instOneIp)).address = none) ∧
        (a.ip ≠ "" → (convertOne 3128 (summarizeOne instOneIp)).address =
          some { hostname := a.ip, port := 3128 }) :=
  C6_address_from_first_ip cfgA 3128 envA
    (convertOne 3128 (summarizeOne instOneIp)) (by decide)

/-- Claim C10: a raw descriptor whose name is absent, null or the empty
string never appears in the getModels output — adding such a descriptor to
the listing changes nothing, and every surviving model has a present,
non-empty name — even when the configured pool name is the empty string
(the quantification over cfg covers it; the name's own truthiness test
rejects the descriptor first). -/
theorem C10_falsy_name_excluded (cfg : Config) (p : Int) (env : VendorEnv)
    (d : RawInstanceDesc) (h : d.name = none ∨ d.name = some "") :
    getModels cfg p { env with instances := d :: env.instances } =
      getModels cfg p env ∧
    ∀ m ∈ getModels cfg p env, m.providerOpts.name ≠ none ∧
      m.providerOpts.name ≠ some "" := by
  have hns : nameInScope cfg.name d.name = false := by
    rcases h with h | h <;> simp [nameInScope, h]
  refine ⟨getModels_cons_skip cfg p env d (Or.inr hns), ?_⟩
  intro m hm
  rcases (mem_getModels_iff cfg p env m).1 hm with ⟨e, -, -, hscope, rfl⟩
  cases he : e.name with
  | none => rw [he] at hscope; simp [nameInScope] at hscope
  | some n =>
      rw [he] at hscope
      simp only [nameInScope, Bool.and_eq_true, decide_eq_true_eq] at hscope
      constructor
      · simp [convertOne, summarizeOne, he]
      · simp [convertOne, summarizeOne, he, hscope.1]

/-- Witness for C10: a nameless descriptor with the empty pool name, which
would otherwise prefix-match every name. -/
theorem C10_witness :
    getModels cfgEmpty 3128
        { envA with instances := instNoName :: envA.instances } =
      getModels cfgEmpty 3128 envA ∧
    ∀ m ∈ getModels cfgEmpty 3128 envA, m.providerOpts.name ≠ none ∧
      m.providerOpts.name ≠ some "" :=
  C10_falsy_name_excluded cfgEmpty 3128 envA instNoName (Or.inl rfl)

/-- A skipped resolution block leaves the cache untouched. -/
theorem resolveLookup_of_truthy (cached : Option String)
    (l : List NamedResource) (nm : String) (h : optTruthy cached = true) :
    resolveLookup cached l nm = cached := by
  simp [resolveLookup, h]

/-- When the resolution block is not the failing one, the resulting cache
entry is truthy, provided the environment's resource ids are non-empty. -/
theorem resolveLookup_truthy_of_not_failed (cached : Option String)
    (l : List NamedResource) (nm : String) (hwf : ∀ x ∈ l, x.id ≠ "")
    (h : ((!(optTruthy cached)) && (findByName l nm).isNone) = false) :
    optTruthy (resolveLookup cached l nm) = true := by
  by_cases hc : optTruthy cached = true
  · rw [resolveLookup_of_truthy cached l nm hc]
    exact hc
  · have hnc : (!(optTruthy cached)) = true := by simp [hc]
    rw [hnc, Bool.true_and] at h
    rcases hf : findByName l nm with _ | r
    · rw [hf] at h; simp at h
    · have hres : resolveLookup cached l nm = some r.id := by
        simp [resolveLookup, hnc, hf]
      rw [hres]
      simpa [optTruthy] using hwf r (List.mem_of_find?_eq_some hf)

/-- When all three cached ids are truthy, the init step is a no-op: no
request, unchanged state, success. -/
theorem initResolve_of_allResolved (cfg : Config) (st : ProviderState)
    (env : VendorEnv) (h : allResolved st = true) :
    initResolve cfg st env = (Except.ok (), st, []) := by
  simp only [allResolved, Bool.and_eq_true] at h
  obtain ⟨⟨h1, h2⟩, h3⟩ := h
  simp [initResolve, resolveLookup, h1, h2, h3]

/-- A successful init step leaves all three cached ids truthy (with
non-empty vendor ids). -/
theorem initResolve_ok_allResolved (cfg : Config) (st : ProviderState)
    (env : VendorEnv) (hwf : wellFormedIds env)
    (h : (initResolve cfg st env).1 = Except.ok ()) :
    allResolved (initResolve cfg st env).2.1 = true := by
  obtain ⟨hwf1, hwf2, hwf3⟩ := hwf
  have hc1 : ((!(optTruthy st.flavorId)) &&
      (findByName env.flavors cfg.flavorName).isNone) = false := by
    by_contra hx
    rw [Bool.not_eq_false] at hx
    simp [initResolve, hx] at h
  have hc2 : ((!(optTruthy st.snapshotId)) &&
      (findByName env.snapshots cfg.snapshotName).isNone) = false := by
    by_contra hx
    rw [Bool.not_eq_false] at hx
    simp [initResolve, hx] at h
    split at h <;> exact Except.noConfusion h
  have hc3 : ((!(optTruthy st.sshKeyId)) &&
      (findByName env.sshKeys cfg.sshKeyName).isNone) = false := by
    by_contra hx
    rw [Bool.not_eq_false] at hx
    simp [initResolve, hx] at h
    split at h
    · exact Except.noConfusion h
    · split at h <;> exact Except.noConfusion h
  simp only [initResolve, allResolved, Bool.and_eq_true]
  exact ⟨⟨resolveLookup_truthy_of_not_failed _ _ _ hwf1 hc1,
    resolveLookup_truthy_of_not_failed _ _ _ hwf2 hc2⟩,
    resolveLookup_truthy_of_not_failed _ _ _ hwf3 hc3⟩

/-- Creation requests are not resolution list requests. -/
theorem resolutionReqCount_replicate_create (n : Nat)
    (a b c d e f : String) :
    resolutionReqCount
      (List.replicate n (VendorRequest.createInstance a b c d e f)) = 0 := by
  simp [resolutionReqCount, List.filter_replicate, isResolutionReq]

/-- A createInstances call starting from a fully resolved cache issues no
resolution list request and leaves the state unchanged. -/
theorem createInstances_of_allResolved (cfg : Config) (st : ProviderState)
    (env : VendorEnv) (count : Nat) (h : allResolved st = true) :
    resolutionReqCount (createInstances cfg st env count).2.2 = 0 ∧
    (createInstances cfg st env count).2.1 = st := by
  rcases Bool.eq_false_or_eq_true (match cfg.maxRunningInstances with
    | none => false
    | some cap =>
        (cap != 0) && decide (nonDeletingCount env.instances + count > cap))
    with hcap | hcap <;>
  simp [createInstances, hcap, initResolve_of_allResolved cfg st env h,
    resolutionReqCount, isResolutionReq, List.filter_replicate]

/-- A successful createInstances call leaves all three cached ids
truthy. -/
theorem allResolved_after_ok (cfg : Config) (st : ProviderState)
    (env : VendorEnv) (count : Nat) (hwf : wellFormedIds env)
    (hok : (createInstances cfg st env count).1 = Except.ok ()) :
    allResolved (createInstances cfg st env count).2.1 = true := by
  rcases Bool.eq_false_or_eq_true (match cfg.maxRunningInstances with
    | none => false
    | some cap =>
        (cap != 0) && decide (nonDeletingCount env.instances + count > cap))
    with hcap | hcap
  · exfalso
    simp [createInstances, hcap] at hok
  · rcases hinit : initResolve cfg st env with ⟨res, st2, reqs⟩
    cases res with
    | error e =>
        exfalso
        simp [createInstances, hcap, hinit] at hok
    | ok u =>
        have h1 : (initResolve cfg st env).1 = Except.ok () := by rw [hinit]
        have h2 := initResolve_ok_allResolved cfg st env hwf h1
        rw [hinit] at h2
        have hgoal : (createInstances cfg st env count).2.1 = st2 := by
          simp [createInstances, hcap, hinit]
        rw [hgoal]
        exact h2

/-- Claim C7: across successive createInstances calls, each of the flavor,
snapshot and ssh-key ids is resolved at most once: after a successful call
(in an environment whose vendor resource ids are non-empty, as real ids
are), every later createInstances call reuses the cached ids — it issues
zero resolution list-requests and leaves the cache unchanged, so by
induction the ids are never re-resolved on any later call. -/
theorem C7_resolve_at_most_once (cfg : Config) (st : ProviderState)
    (env env' : VendorEnv) (count count' : Nat) (hwf : wellFormedIds env)
    (hok : (createInstances cfg st env count).1 = Except.ok ()) :
    resolutionReqCount
      (createInstances cfg ((createInstances cfg st env count).2.1)
        env' count').2.2 = 0 ∧
    (createInstances cfg ((createInstances cfg st env count).2.1)
        env' count').2.1 = (createInstances cfg st env count).2.1 :=
  createInstances_of_allResolved cfg _ env' count'
    (allResolved_after_ok cfg st env count hwf hok)

/-- Witness for C7: a first successful call in the sample environment,
followed by a second call that issues no resolution request. -/
theorem C7_witness :
    resolutionReqCount
      (createInstances cfgA ((createInstances cfgA initialState envA 1).2.1)
        envA 2).2.2 = 0 ∧
    (createInstances cfgA ((createInstances cfgA initialState envA 1).2.1)
        envA 2).2.1 = (createInstances cfgA initialState envA 1).2.1 :=
  C7_resolve_at_most_once cfgA initialState envA envA 1 2 (by decide) rfl

/-- The per-model traces of a delete batch flatten to one delete request
per model, in order. -/
theorem deleteBatch_trace (cfg : Config) (env : VendorEnv)
    (models : List InstanceModel) :
    ((models.map (fun m => deleteOne cfg env m.providerOpts.id)).map
        (fun p => p.2)).flatten =
      models.map (fun m =>
        VendorRequest.deleteInstance cfg.serviceId m.providerOpts.id) := by
  induction models with
  | nil => rfl
  | cons a t ih =>
      simp only [List.map_cons, List.flatten_cons, ih]
      rfl

/-- The delete batch reports no failure exactly when no model's id is in
the environment's failing set. -/
theorem deleteBatch_ok_iff (cfg : Config) (env : VendorEnv)
    (models : List InstanceModel) :
    ((models.map (fun m => deleteOne cfg env m.providerOpts.id)).findSome?
        errOf = none) ↔
      ∀ m ∈ models, m.providerOpts.id ∉ env.failingDeletes := by
  induction models with
  | nil => simp
  | cons a t ih =>
      simp only [List.map_cons, List.findSome?_cons]
      by_cases ha : a.providerOpts.id ∈ env.failingDeletes
      · simp [deleteOne, errOf, ha]
      · have hea : errOf (deleteOne cfg env a.providerOpts.id) = none := by
          simp [deleteOne, errOf, ha]
        rw [hea]
        show List.findSome? errOf
            (t.map fun m => deleteOne cfg env m.providerOpts.id) = none ↔ _
        rw [ih]
        simp [List.forall_mem_cons, ha]

/-- Claim C8: deleteInstances on the empty list succeeds immediately with
no vendor call; on a non-empty list it issues exactly one delete request
per model (in order) and the overall operation succeeds exactly when every
individual delete succeeds. -/
theorem C8_deleteInstances_batch (cfg : Config) (env : VendorEnv) :
    deleteInstances cfg env [] = (Except.ok (), []) ∧
    ∀ models : List InstanceModel, models ≠ [] →
      (deleteInstances cfg env models).2 =
        models.map (fun m =>
          VendorRequest.deleteInstance cfg.serviceId m.providerOpts.id) ∧
      ((deleteInstances cfg env models).1 = Except.ok () ↔
        ∀ m ∈ models, m.providerOpts.id ∉ env.failingDeletes) := by
  refine ⟨rfl, ?_⟩
  intro models hne
  have hlen : ¬ models.length ≤ 0 := by
    cases models with
    | nil => exact absurd rfl hne
    | cons a t => simp
  refine ⟨?_, ?_⟩
  · simp only [deleteInstances, if_neg hlen]
    exact deleteBatch_trace cfg env models
  · rcases hfe : (models.map
        (fun m => deleteOne cfg env m.providerOpts.id)).findSome? errOf
      with _ | e
    · simp only [deleteInstances, if_neg hlen, hfe]
      constructor
      · intro _
        exact (deleteBatch_ok_iff cfg env models).1 hfe
      · intro _
        trivial
    · simp only [deleteInstances, if_neg hlen, hfe]
      constructor
      · intro h1
        exact absurd h1 (by simp)
      · intro hall
        exfalso
        have hnone := (deleteBatch_ok_iff cfg env models).2 hall
        rw [hfe] at hnone
        exact Option.noConfusion hnone

/-- Witness for C8: the empty batch, and a two-model batch where one delete
fails. -/
theorem C8_witness :
    deleteInstances cfgA envA [] = (Except.ok (), []) ∧
    (deleteInstances cfgA envA [mOk, mBad]).2 =
      [mOk, mBad].map (fun m =>
        VendorRequest.deleteInstance cfgA.serviceId m.providerOpts.id) ∧
    ((deleteInstances cfgA envA [mOk, mBad]).1 = Except.ok () ↔
      ∀ m ∈ [mOk, mBad], m.providerOpts.id ∉ envA.failingDeletes) :=
  ⟨(C8_deleteInstances_batch cfgA envA).1,
   ((C8_deleteInstances_batch cfgA envA).2 [mOk, mBad] (by simp)).1,
   ((C8_deleteInstances_batch cfgA envA).2 [mOk, mBad] (by simp)).2⟩

/-- Counterexample to claim C9: the constructor checks JavaScript
truthiness of the port (`!instancePort`), so the negative — hence
non-positive — port -1 is accepted, although the claim requires
construction to fail for any non-positive port. -/
theorem C9_counterexample :
    mkProviderOVHCloud (some cfgA) (-1) =
      Except.ok { config := cfgA, instancePort := -1, name := "ovhcloud",
                  state := initialState } := by
  rfl

/-- Claim C9 (amended): construction succeeds exactly when a configuration
is supplied and the instance port is non-zero (truthy); a zero port fails
fast, but a negative port is accepted. -/
theorem C9_construction_iff (c : Option Config) (p : Int) :
    isOk (mkProviderOVHCloud c p) = (c.isSome && p != 0) := by
  cases c with
  | none => rfl
  | some cfg =>
      by_cases hp : p = 0 <;> simp [mkProviderOVHCloud, isOk, hp]

end OVHCloud
